import Mathlib

/-!
Shallow embedding of the FloorPlanTo3D generation core
(`src/services/geminiService.ts` and the generation handler of `src/App.tsx`).

The Generation Client (`ai.models.generateContent` / `ai.models.list`) and
the Image Encoder (`fileToBase64`) are external collaborators; following the
specification's interface contracts they are modelled as explicit parameters:
a client maps a call index and the request that is issued to either a response
or a thrown transport error.  Thrown failures from the client boundary are
`TransportError` values carrying a message, so a caught exception is modelled
as a `String` (the branch of the source that handles a thrown non-`Error`
value is unreachable under this boundary contract).

The orchestrator is effectful only through its two callbacks
(`setLoadingStep`, `onResult`) and the outbound client calls; a run is
therefore embedded as a pure function returning the ordered trace of those
observable events together with the run's outcome.
-/

namespace FloorPlanTo3D

/-- The loading-step values of `geminiService.ts` / `App.tsx`
(`idle | analyzingStyle | analyzingPlan | generatingImage`); in the
specification they are named `Idle`, `ExtractingStyle`, `AnalyzingPlan`,
`GeneratingImage` respectively. -/
inductive LoadingStep where
  | idle
  | analyzingStyle
  | analyzingPlan
  | generatingImage
deriving DecidableEq, Repr

/-- An inline binary payload: base64-encoded bytes plus a media type. -/
structure InlineData where
  data : String
  mimeType : String
deriving DecidableEq, Repr

/-- A content part as exchanged with the Generation Client: optional text
and optional inline binary data (the SDK's `Part`). -/
structure Part where
  text : Option String := none
  inlineData : Option InlineData := none
deriving DecidableEq, Repr

/-- A candidate's content: an optional list of parts. -/
structure Content where
  parts : Option (List Part) := none
deriving DecidableEq, Repr

/-- One response candidate. -/
structure Candidate where
  content : Option Content := none
deriving DecidableEq, Repr

/-- A Generation Client response: optional aggregated text and optional
candidates (`response.text`, `response.candidates`). -/
structure GenResponse where
  text : Option String := none
  candidates : Option (List Candidate) := none
deriving DecidableEq, Repr

/-- The part list of the first candidate, with every absent link defaulted
to the empty list: `response.candidates?.[0]?.content?.parts || []`. -/
def GenResponse.firstCandidateParts (response : GenResponse) : List Part :=
  match response.candidates with
  | none => []
  | some cs =>
    match cs.head? with
    | none => []
    | some c =>
      match c.content with
      | none => []
      | some ct => ct.parts.getD []

/-- An uploaded image file, modelled by what the external Image Encoder
boundary exposes of it: its base64-encoded bytes and its media type. -/
structure File where
  base64Data : String
  type : String
deriving DecidableEq, Repr

/-- The external `fileToBase64` encoder (`src/utils/fileUtils`), assumed
total for well-formed images; it is modelled as returning the file's
encoded payload. -/
def fileToBase64 (file : File) : String :=
  file.base64Data

/-- `fileToGenerativePart`: wraps the encoded file as an inline-data part. -/
def fileToGenerativePart (file : File) : Part :=
  { inlineData := some { data := fileToBase64 file, mimeType := file.type } }

/-- A generation request: the target model identifier and the ordered parts. -/
structure GenRequest where
  model : String
  parts : List Part
deriving DecidableEq, Repr

/-- The Generation Client boundary for one orchestrator run: the outcome of
the call with the given index and request — either a response, or a thrown
transport error carrying its message. -/
abbrev Client := Nat → GenRequest → Except String GenResponse

/-- The fixed model identifier of `geminiService.ts`. -/
def model : String :=
  "gemini-3-pro-image-preview"

/-- `STYLE_EXTRACTION_PROMPT` from `src/constants.ts`: a fixed instruction
string whose body is an opaque template per the specification's scope
(prompt-text content is out of scope); only its identity matters here. -/
def STYLE_EXTRACTION_PROMPT : String :=
  "STEP 1: HYPER-SPECIFIC STYLE EXTRACTION"

/-- `FLOOR_PLAN_ANALYSIS_PROMPT` from `src/constants.ts`, likewise opaque. -/
def FLOOR_PLAN_ANALYSIS_PROMPT : String :=
  "STEP 2: FLOOR PLAN ARCHITECTURAL ANALYSIS"

/-- The fixed text surrounding the style description in the final prompt
template, opaque per the specification's scope. -/
def finalPromptHeader : String :=
  "PRIMARY DIRECTIVE / style guide: "

/-- The fixed text between the two substituted artifacts in the final
prompt template, opaque per the specification's scope. -/
def finalPromptBridge : String :=
  " / architectural plan: "

/-- The fixed trailing text of the final prompt template, opaque per the
specification's scope. -/
def finalPromptFooter : String :=
  " / rendering command"

/-- `getFinalPromptTemplate` from `src/constants.ts`: deterministically
substitutes the two extracted texts into the fixed template. -/
def getFinalPromptTemplate (styleDescription floorPlanAnalysis : String) : String :=
  finalPromptHeader ++ styleDescription ++ finalPromptBridge ++ floorPlanAnalysis ++ finalPromptFooter

/-- Message of the `Error` thrown when stage 1 yields no usable text. -/
def styleExtractionFailedMsg : String :=
  "Could not extract style from reference image."

/-- Message of the `Error` thrown when stage 2 yields no usable text. -/
def planAnalysisFailedMsg : String :=
  "Could not analyze the floor plan image."

/-- Message of the `Error` thrown when stage 3 produces no inline image. -/
def noImageProducedMsg : String :=
  "No image was generated. The model may have refused the request."

/-- The error message set by `handleGenerate` when an input image is missing. -/
def inputMissingMsg : String :=
  "Please upload both a floor plan and a reference image."

/-- The stage-1 request: the style-extraction instruction followed by the
encoded reference image. -/
def styleRequest (referenceImageFile : File) : GenRequest :=
  { model := model
    parts := [{ text := some STYLE_EXTRACTION_PROMPT }, fileToGenerativePart referenceImageFile] }

/-- The stage-2 request: the floor-plan-analysis instruction followed by the
encoded floor plan. -/
def planRequest (floorPlanFile : File) : GenRequest :=
  { model := model
    parts := [{ text := some FLOOR_PLAN_ANALYSIS_PROMPT }, fileToGenerativePart floorPlanFile] }

/-- The stage-3 request: the encoded floor plan followed by the final
prompt built from the two extracted texts. -/
def finalRequest (floorPlanFile : File) (styleDescription floorPlanAnalysis : String) : GenRequest :=
  { model := model
    parts := [fileToGenerativePart floorPlanFile
              , { text := some (getFinalPromptTemplate styleDescription floorPlanAnalysis) }] }

/-- JavaScript truthiness of an optional string (`!styleDescription`):
`none` when the text is absent or empty, the text otherwise. -/
def nonEmptyText : Option String → Option String
  | none => none
  | some s => if s = "" then none else some s

/-- The first inline-data payload in a part list, scanning in order
(the `for` loop over `finalResponse`'s parts). -/
def firstInlineData : List Part → Option InlineData
  | [] => none
  | part :: rest =>
    match part.inlineData with
    | some d => some d
    | none => firstInlineData rest

/-- The data URI handed to `onResult`. -/
def dataUri (d : InlineData) : String :=
  "data:" ++ d.mimeType ++ ";base64," ++ d.data

/-- One observable event of an orchestrator run: a `setLoadingStep`
invocation, an outbound client call, or the `onResult` delivery. -/
inductive Event where
  | stage (step : LoadingStep)
  | call (request : GenRequest)
  | result (uri : String)
deriving DecidableEq, Repr

/-- Whether an event is an outbound Generation Client call. -/
def isCallEvent : Event → Bool
  | .call _ => true
  | _ => false

/-- The number of outbound Generation Client calls in a trace. -/
def countCalls (events : List Event) : Nat :=
  events.countP isCallEvent

/-- `generateVirtualStaging` from `src/services/geminiService.ts`: the
three-stage pipeline, returning the ordered trace of observable events and
the outcome — the data URI delivered through `onResult`, or the thrown
error's message. -/
def generateVirtualStaging (floorPlanFile referenceImageFile : File) (client : Client) :
    List Event × Except String String :=
  let events1 : List Event := [.stage .analyzingStyle, .call (styleRequest referenceImageFile)]
  match client 0 (styleRequest referenceImageFile) with
  | .error e => (events1, .error e)
  | .ok styleResponse =>
    match nonEmptyText styleResponse.text with
    | none => (events1, .error styleExtractionFailedMsg)
    | some styleDescription =>
      let events2 := events1 ++ [.stage .analyzingPlan, .call (planRequest floorPlanFile)]
      match client 1 (planRequest floorPlanFile) with
      | .error e => (events2, .error e)
      | .ok floorPlanResponse =>
        match nonEmptyText floorPlanResponse.text with
        | none => (events2, .error planAnalysisFailedMsg)
        | some floorPlanAnalysis =>
          let events3 := events2 ++
            [.stage .generatingImage
             , .call (finalRequest floorPlanFile styleDescription floorPlanAnalysis)]
          match client 2 (finalRequest floorPlanFile styleDescription floorPlanAnalysis) with
          | .error e => (events3, .error e)
          | .ok finalResponse =>
            match firstInlineData finalResponse.firstCandidateParts with
            | some d => (events3 ++ [.result (dataUri d)], .ok (dataUri d))
            | none => (events3, .error noImageProducedMsg)

/-- The generation-related component state of `App.tsx`. -/
structure AppState where
  generatedImage : Option String := none
  loadingStep : LoadingStep := .idle
  error : Option String := none
deriving DecidableEq, Repr

/-- `handleGenerate` from `src/App.tsx`: guards the inputs, then runs the
orchestrator, delivering the result (and resetting the step to `idle`)
through the callback on success, and recording the caught error's message
(and resetting the step to `idle`) on failure.  When an input is missing it
only sets the error message and returns, issuing no event. -/
def handleGenerate (s : AppState) (floorPlanImage referenceImage : Option File)
    (client : Client) : List Event × AppState :=
  match floorPlanImage, referenceImage with
  | some floorPlanFile, some referenceImageFile =>
    let run := generateVirtualStaging floorPlanFile referenceImageFile client
    match run.2 with
    | .ok imageResult =>
      (run.1, { generatedImage := some imageResult, loadingStep := .idle, error := none })
    | .error e =>
      (run.1, { generatedImage := none, loadingStep := .idle, error := some e })
  | _, _ => ([], { s with error := some inputMissingMsg })

/-- One entry of the backend's model listing: its identifier and the
generation methods it advertises (`model.name`,
`model.supportedGenerationMethods`). -/
structure ListedModel where
  name : String
  supportedGenerationMethods : List String
deriving DecidableEq, Repr

/-- JavaScript `String.prototype.startsWith`, modelled on the character
sequence: whether the characters of `pre` lead the characters of `s`. -/
def strStartsWith (s pre : String) : Bool :=
  pre.data.isPrefixOf s.data

/-- The sentinel diagnostic returned when no listed model supports
content generation. -/
def noModelsMsg : String :=
  "No models supporting \x27generateContent\x27 found for your API key."

/-- The diagnostic returned when the listing call throws, wrapping the
thrown error's message. -/
def errorListingMsg (message : String) : String :=
  "Error listing models: " ++ message

/-- The identifiers of the listed models that advertise `generateContent`
support, in listing order (the accumulation loop of
`listAvailableModels`). -/
def capableModelNames (models : List ListedModel) : List String :=
  (models.filter fun m => m.supportedGenerationMethods.contains ("generateContent")).map
    fun m => m.name

/-- `listAvailableModels` from `src/services/geminiService.ts`.  The
listing boundary is a parameter: the backend's model list, or a thrown
transport error's message. -/
def listAvailableModels (listing : Except String (List ListedModel)) : List String :=
  match listing with
  | .ok models =>
    let modelNames := capableModelNames models
    if modelNames.length = 0 then [noModelsMsg] else modelNames
  | .error err => [errorListingMsg err]

/-- `ModelTestResult` from `src/services/geminiService.ts`; the response
time is in milliseconds. -/
structure ModelTestResult where
  modelName : String
  supportsImageGeneration : Bool
  error : Option String := none
  responseTime : Option Nat := none
deriving DecidableEq, Repr

/-- The error recorded when a probed model responds without an image. -/
def noImageFromModelMsg : String :=
  "Model responded but did not generate an image"

/-- `testImageGenerationModel` from `src/services/geminiService.ts`: issues
one minimal generation request and classifies the outcome.  The client
outcome of the single call and the wall-clock time elapsed around it
(`Date.now() - startTime`) are parameters of the boundary. -/
def testImageGenerationModel (modelName : String) (client : Except String GenResponse)
    (elapsed : Nat) : ModelTestResult :=
  match client with
  | .ok response =>
    let hasImage := response.firstCandidateParts.any fun part => part.inlineData.isSome
    if hasImage then
      { modelName := modelName
        supportsImageGeneration := true
        responseTime := some elapsed }
    else
      { modelName := modelName
        supportsImageGeneration := false
        error := some noImageFromModelMsg
        responseTime := some elapsed }
  | .error err =>
    { modelName := modelName
      supportsImageGeneration := false
      error := some err
      responseTime := some elapsed }

/-- Whether a listed identifier is one of the diagnostic strings by the
string-prefix convention of `testAllModelsForImageGeneration`. -/
def isDiagnostic (m : String) : Bool :=
  strStartsWith m ("Error") || strStartsWith m ("No models")

/-- `testAllModelsForImageGeneration` from `src/services/geminiService.ts`:
lists the models, drops the diagnostic strings by prefix, and probes each
remaining identifier in order, strictly sequentially.  `probeClient i` and
`elapsed i` are the client outcome and measured time of the `i`-th probe.
The first component is the ordered list of identifiers actually probed;
the second is the accumulated result sequence. -/
def testAllModelsForImageGeneration (listing : Except String (List ListedModel))
    (probeClient : Nat → Except String GenResponse) (elapsed : Nat → Nat) :
    List String × List ModelTestResult :=
  let models := listAvailableModels listing
  let validModels := models.filter fun m =>
    !(strStartsWith m ("Error")) && !(strStartsWith m ("No models"))
  if validModels.length = 0 then ([], [])
  else
    (validModels,
      validModels.enum.map fun p => testImageGenerationModel p.2 (probeClient p.1) (elapsed p.1))

/-- A concrete uploaded image for concrete runs. -/
def sampleFile : File :=
  { base64Data := "QUJD", type := "image/png" }

/-- A response carrying only aggregated text. -/
def okTextResponse (s : String) : GenResponse :=
  { text := some s }

/-- A part carrying inline PNG data. -/
def samplePart : Part :=
  { inlineData := some { data := "WA==", mimeType := "image/png" } }

/-- A response whose first candidate carries one inline-image part. -/
def okImageResponse : GenResponse :=
  { candidates := some [{ content := some { parts := some [samplePart] } }] }

/-- A client double for the success path: text for the first two calls, an
inline image for the third. -/
def successClient : Client := fun n _ =>
  if n < 2 then .ok (okTextResponse ("style text")) else .ok okImageResponse

/-- A client double that always throws. -/
def failingClient : Client := fun _ _ =>
  .error ("transport failure")

/-- A client double whose responses carry no text at all. -/
def emptyTextClient : Client := fun _ _ =>
  .ok {}

/-- A backend listing with one ordinarily named capable model. -/
def sampleModels : List ListedModel :=
  [{ name := "m1", supportedGenerationMethods := [("generateContent")] }]

/-- A backend listing whose single capable model has an identifier that
collides with the diagnostic prefix convention. -/
def trickModels : List ListedModel :=
  [{ name := "Error fake-model", supportedGenerationMethods := [("generateContent")] }]

/-- A probe-client double that always throws. -/
def sampleProbeClient : Nat → Except String GenResponse := fun _ =>
  .error ("boom")

/-- A fixed timing assignment for probes. -/
def sampleElapsed : Nat → Nat := fun _ =>
  7

/-- A resolving run leaves the trace in the canonical success shape: the
three stages interleaved with the three calls, then the result delivery. -/
theorem gvs_ok_trace (floorPlanFile referenceImageFile : File) (client : Client) (uri : String)
    (h : (generateVirtualStaging floorPlanFile referenceImageFile client).2 = .ok uri) :
    ∃ q1 q2 q3 : GenRequest,
      (generateVirtualStaging floorPlanFile referenceImageFile client).1 =
        [.stage .analyzingStyle, .call q1, .stage .analyzingPlan, .call q2,
         .stage .generatingImage, .call q3, .result uri] := by
  cases hc0 : client 0 (styleRequest referenceImageFile) with
  | error e => simp [generateVirtualStaging, hc0] at h
  | ok r1 =>
    cases ht1 : nonEmptyText r1.text with
    | none => simp [generateVirtualStaging, hc0, ht1] at h
    | some s1 =>
      cases hc1 : client 1 (planRequest floorPlanFile) with
      | error e => simp [generateVirtualStaging, hc0, ht1, hc1] at h
      | ok r2 =>
        cases ht2 : nonEmptyText r2.text with
        | none => simp [generateVirtualStaging, hc0, ht1, hc1, ht2] at h
        | some s2 =>
          cases hc2 : client 2 (finalRequest floorPlanFile s1 s2) with
          | error e => simp [generateVirtualStaging, hc0, ht1, hc1, ht2, hc2] at h
          | ok r3 =>
            cases hfi : firstInlineData r3.firstCandidateParts with
            | none => simp [generateVirtualStaging, hc0, ht1, hc1, ht2, hc2, hfi] at h
            | some d =>
              refine ⟨styleRequest referenceImageFile, planRequest floorPlanFile,
                finalRequest floorPlanFile s1 s2, ?_⟩
              simp [generateVirtualStaging, hc0, ht1, hc1, ht2, hc2, hfi] at h ⊢
              simp [h]

/-- A failing run delivers no result event: `onResult` never fires. -/
theorem gvs_error_no_result (floorPlanFile referenceImageFile : File) (client : Client)
    (e : String)
    (h : (generateVirtualStaging floorPlanFile referenceImageFile client).2 = .error e) :
    ∀ uri : String,
      Event.result uri ∉ (generateVirtualStaging floorPlanFile referenceImageFile client).1 := by
  intro uri
  cases hc0 : client 0 (styleRequest referenceImageFile) with
  | error e0 => simp [generateVirtualStaging, hc0]
  | ok r1 =>
    cases ht1 : nonEmptyText r1.text with
    | none => simp [generateVirtualStaging, hc0, ht1]
    | some s1 =>
      cases hc1 : client 1 (planRequest floorPlanFile) with
      | error e1 => simp [generateVirtualStaging, hc0, ht1, hc1]
      | ok r2 =>
        cases ht2 : nonEmptyText r2.text with
        | none => simp [generateVirtualStaging, hc0, ht1, hc1, ht2]
        | some s2 =>
          cases hc2 : client 2 (finalRequest floorPlanFile s1 s2) with
          | error e2 => simp [generateVirtualStaging, hc0, ht1, hc1, ht2, hc2]
          | ok r3 =>
            cases hfi : firstInlineData r3.firstCandidateParts with
            | none => simp [generateVirtualStaging, hc0, ht1, hc1, ht2, hc2, hfi]
            | some d => simp [generateVirtualStaging, hc0, ht1, hc1, ht2, hc2, hfi] at h

/-- The ordered scan of the part list agrees with finding the first part
that carries inline data. -/
theorem firstInlineData_eq_find (ps : List Part) :
    firstInlineData ps =
      (ps.find? fun p => p.inlineData.isSome).bind Part.inlineData := by
  induction ps with
  | nil => rfl
  | cons p rest ih =>
    cases hp : p.inlineData with
    | some d => simp [firstInlineData, List.find?, hp]
    | none => simp [firstInlineData, List.find?, hp, ih]

/-- C1: In every orchestrator run in which both images are supplied and all
three generation calls succeed — the first two with non-empty text and the
third with an inline image — the stage callback is invoked with exactly the
sequence `analyzingStyle` (ExtractingStyle), `analyzingPlan`
(AnalyzingPlan), `generatingImage` (GeneratingImage), in that order, each
immediately before the corresponding generation call, no stage skipped,
repeated or reordered, and all three before the final image is delivered
through the result callback, which is the last event of the run. -/
theorem stage_sequence_on_success (floorPlanFile referenceImageFile : File) (client : Client)
    (r1 r2 r3 : GenResponse) (s1 s2 : String) (d : InlineData)
    (hc0 : client 0 (styleRequest referenceImageFile) = .ok r1)
    (ht1 : nonEmptyText r1.text = some s1)
    (hc1 : client 1 (planRequest floorPlanFile) = .ok r2)
    (ht2 : nonEmptyText r2.text = some s2)
    (hc2 : client 2 (finalRequest floorPlanFile s1 s2) = .ok r3)
    (hfi : firstInlineData r3.firstCandidateParts = some d) :
    (generateVirtualStaging floorPlanFile referenceImageFile client).1 =
      [.stage .analyzingStyle, .call (styleRequest referenceImageFile),
       .stage .analyzingPlan, .call (planRequest floorPlanFile),
       .stage .generatingImage, .call (finalRequest floorPlanFile s1 s2),
       .result (dataUri d)] ∧
    (generateVirtualStaging floorPlanFile referenceImageFile client).2 = .ok (dataUri d) := by
  constructor <;> simp [generateVirtualStaging, hc0, ht1, hc1, ht2, hc2, hfi]

/-- Witness: the canonical success double realizes the C1 hypotheses. -/
theorem stage_sequence_on_success_witness :
    (generateVirtualStaging sampleFile sampleFile successClient).1 =
      [.stage .analyzingStyle, .call (styleRequest sampleFile),
       .stage .analyzingPlan, .call (planRequest sampleFile),
       .stage .generatingImage, .call (finalRequest sampleFile ("style text") ("style text")),
       .result (dataUri { data := "WA==", mimeType := "image/png" })] ∧
    (generateVirtualStaging sampleFile sampleFile successClient).2 =
      .ok (dataUri { data := "WA==", mimeType := "image/png" }) :=
  stage_sequence_on_success sampleFile sampleFile successClient
    (okTextResponse ("style text")) (okTextResponse ("style text")) okImageResponse
    ("style text") ("style text") { data := "WA==", mimeType := "image/png" }
    (by rfl) (by rfl) (by rfl) (by rfl) (by rfl) (by rfl)

/-- C2: When the floor-plan image or the reference image is missing,
`handleGenerate` fails immediately with the input-missing error message,
and the empty event trace shows that the stage callback is never invoked
and no generation-client call is issued. -/
theorem inputMissing_no_events (s : AppState) (floorPlanImage referenceImage : Option File)
    (client : Client) (h : floorPlanImage = none ∨ referenceImage = none) :
    handleGenerate s floorPlanImage referenceImage client =
      ([], { s with error := some inputMissingMsg }) := by
  rcases h with h | h
  · subst h
    cases referenceImage <;> rfl
  · subst h
    cases floorPlanImage <;> rfl

/-- Witness: a run with both images absent hits the C2 guard. -/
theorem inputMissing_no_events_witness :
    handleGenerate {} none none failingClient =
      ([], { ({} : AppState) with error := some inputMissingMsg }) :=
  inputMissing_no_events {} none none failingClient (Or.inl rfl)

/-- C3: With the first two stages succeeding, the run's outcome is decided
by scanning the stage-3 response's content parts in order: if some part
carries inline data, the run resolves to the data URI built from the first
such part; otherwise it fails with the no-image message, irrespective of
any text the response may carry (no hypothesis constrains `r3.text`). -/
theorem stage3_scan_first_inline (floorPlanFile referenceImageFile : File) (client : Client)
    (r1 r2 r3 : GenResponse) (s1 s2 : String)
    (hc0 : client 0 (styleRequest referenceImageFile) = .ok r1)
    (ht1 : nonEmptyText r1.text = some s1)
    (hc1 : client 1 (planRequest floorPlanFile) = .ok r2)
    (ht2 : nonEmptyText r2.text = some s2)
    (hc2 : client 2 (finalRequest floorPlanFile s1 s2) = .ok r3) :
    (generateVirtualStaging floorPlanFile referenceImageFile client).2 =
      (match firstInlineData r3.firstCandidateParts with
        | some d => .ok (dataUri d)
        | none => .error noImageProducedMsg) ∧
    firstInlineData r3.firstCandidateParts =
      (r3.firstCandidateParts.find? fun p => p.inlineData.isSome).bind Part.inlineData := by
  refine ⟨?_, firstInlineData_eq_find r3.firstCandidateParts⟩
  cases hfi : firstInlineData r3.firstCandidateParts <;>
    simp [generateVirtualStaging, hc0, ht1, hc1, ht2, hc2, hfi]

/-- Witness: the C3 scan on the success double resolves to the PNG data
URI built from its single inline part. -/
theorem stage3_scan_first_inline_witness :
    (generateVirtualStaging sampleFile sampleFile successClient).2 =
      (match firstInlineData okImageResponse.firstCandidateParts with
        | some d => .ok (dataUri d)
        | none => .error noImageProducedMsg) ∧
    firstInlineData okImageResponse.firstCandidateParts =
      (okImageResponse.firstCandidateParts.find? fun p => p.inlineData.isSome).bind
        Part.inlineData :=
  stage3_scan_first_inline sampleFile sampleFile successClient
    (okTextResponse ("style text")) (okTextResponse ("style text")) okImageResponse
    ("style text") ("style text") (by rfl) (by rfl) (by rfl) (by rfl) (by rfl)

/-- C4: Whenever the orchestrator fails at any step — empty stage-1 text,
empty stage-2 text, no stage-3 image, or a transport error — the handler
resets the stage to `idle`, surfaces exactly the propagated error message,
and delivers no image (the stored image is `none` and no result event ever
occurred in the trace). -/
theorem failure_resets_and_propagates (s : AppState) (floorPlanFile referenceImageFile : File)
    (client : Client) (e : String)
    (h : (generateVirtualStaging floorPlanFile referenceImageFile client).2 = .error e) :
    handleGenerate s (some floorPlanFile) (some referenceImageFile) client =
      ((generateVirtualStaging floorPlanFile referenceImageFile client).1,
        { generatedImage := none, loadingStep := .idle, error := some e }) ∧
    ∀ uri : String,
      Event.result uri ∉ (generateVirtualStaging floorPlanFile referenceImageFile client).1 := by
  constructor
  · simp [handleGenerate, h]
  · exact gvs_error_no_result floorPlanFile referenceImageFile client e h

/-- Witness: a throwing client double makes the handler surface the thrown
message verbatim with the stage back at `idle` and no image stored. -/
theorem failure_resets_and_propagates_witness :
    handleGenerate {} (some sampleFile) (some sampleFile) failingClient =
      ((generateVirtualStaging sampleFile sampleFile failingClient).1,
        { generatedImage := none, loadingStep := .idle, error := some ("transport failure") }) :=
  (failure_resets_and_propagates {} sampleFile sampleFile failingClient
    ("transport failure") (by rfl)).1

/-- C5: When the stage-1 call returns empty or absent text, the run stops
after exactly the first stage emission and the first client call, failing
with the style-extraction message — the stage-2 call is never issued and
exactly one outbound call was made — whereas any resolving run of the
orchestrator makes exactly three outbound calls. -/
theorem emptyStyle_single_call (floorPlanFile referenceImageFile : File) (client : Client)
    (r1 : GenResponse)
    (hc0 : client 0 (styleRequest referenceImageFile) = .ok r1)
    (ht1 : nonEmptyText r1.text = none) :
    (generateVirtualStaging floorPlanFile referenceImageFile client).1 =
      [.stage .analyzingStyle, .call (styleRequest referenceImageFile)] ∧
    (generateVirtualStaging floorPlanFile referenceImageFile client).2 =
      .error styleExtractionFailedMsg ∧
    countCalls (generateVirtualStaging floorPlanFile referenceImageFile client).1 = 1 ∧
    ∀ (client2 : Client) (uri : String),
      (generateVirtualStaging floorPlanFile referenceImageFile client2).2 = .ok uri →
      countCalls (generateVirtualStaging floorPlanFile referenceImageFile client2).1 = 3 := by
  refine ⟨?_, ?_, ?_, ?_⟩
  · simp [generateVirtualStaging, hc0, ht1]
  · simp [generateVirtualStaging, hc0, ht1]
  · simp [generateVirtualStaging, hc0, ht1, countCalls, isCallEvent]
  · intro client2 uri h
    obtain ⟨q1, q2, q3, ht⟩ := gvs_ok_trace floorPlanFile referenceImageFile client2 uri h
    rw [ht]
    simp [countCalls, isCallEvent]

/-- Witness: an empty-text double realizes C5, and the success double
realizes its three-call contrast. -/
theorem emptyStyle_single_call_witness :
    (generateVirtualStaging sampleFile sampleFile emptyTextClient).2 =
      .error styleExtractionFailedMsg ∧
    countCalls (generateVirtualStaging sampleFile sampleFile emptyTextClient).1 = 1 ∧
    countCalls (generateVirtualStaging sampleFile sampleFile successClient).1 = 3 :=
  ⟨(emptyStyle_single_call sampleFile sampleFile emptyTextClient {} (by rfl) (by rfl)).2.1,
   (emptyStyle_single_call sampleFile sampleFile emptyTextClient {} (by rfl) (by rfl)).2.2.1,
   (emptyStyle_single_call sampleFile sampleFile emptyTextClient {} (by rfl) (by rfl)).2.2.2
     successClient ("data:image/png;base64,WA==") (by rfl)⟩

/-- A character-list prefix survives appending on the right. -/
theorem isPrefixOf_append_left {p q : List Char} (rest : List Char)
    (h : p.isPrefixOf q = true) : p.isPrefixOf (q ++ rest) = true := by
  induction p generalizing q with
  | nil => simp
  | cons a as ih =>
    cases q with
    | nil => simp [List.isPrefixOf] at h
    | cons b bs =>
      simp only [List.cons_append, List.isPrefixOf_cons₂, Bool.and_eq_true] at h ⊢
      exact ⟨h.1, ih h.2⟩

/-- Every listing-failure diagnostic carries the Error prefix, whatever
the wrapped message. -/
theorem errorListingMsg_diagnostic (msg : String) :
    strStartsWith (errorListingMsg msg) ("Error") = true := by
  unfold strStartsWith errorListingMsg
  have h : ("Error listing models: " ++ msg).data = "Error listing models: ".data ++ msg.data := rfl
  rw [h]
  exact isPrefixOf_append_left msg.data (by decide)

/-- The two prefix tests of the probe loop, combined, test exactly the
diagnostic convention. -/
theorem filter_nonDiagnostic (ms : List String) :
    (ms.filter fun m => !(strStartsWith m ("Error")) && !(strStartsWith m ("No models"))) =
      ms.filter fun m => !(isDiagnostic m) := by
  refine List.filter_congr fun m _ => ?_
  simp [isDiagnostic, Bool.not_or]

/-- C6 (amended): the probe sweep probes, in listing order and exactly
once each, precisely the capability-filtered identifiers that do not carry
a diagnostic prefix — not every capability-filtered identifier, since the
listing's diagnostic strings are recognized only by the string-prefix
convention; results align one-to-one with the probed identifiers, and a
diagnostic-only listing (transport failure, or zero capable models) yields
an empty result sequence with zero probe calls. -/
theorem testAll_probes_nonDiagnostic (listing : Except String (List ListedModel))
    (probeClient : Nat → Except String GenResponse) (elapsed : Nat → Nat) :
    (testAllModelsForImageGeneration listing probeClient elapsed).1 =
      (listAvailableModels listing).filter (fun m => !(isDiagnostic m)) ∧
    (∀ models, listing = .ok models →
      (testAllModelsForImageGeneration listing probeClient elapsed).1 =
        (capableModelNames models).filter (fun m => !(isDiagnostic m))) ∧
    (testAllModelsForImageGeneration listing probeClient elapsed).2 =
      ((testAllModelsForImageGeneration listing probeClient elapsed).1).enum.map
        (fun p => testImageGenerationModel p.2 (probeClient p.1) (elapsed p.1)) ∧
    (∀ msg, listing = .error msg →
      testAllModelsForImageGeneration listing probeClient elapsed = ([], [])) := by
  have hvalid : (testAllModelsForImageGeneration listing probeClient elapsed).1 =
      (listAvailableModels listing).filter (fun m => !(isDiagnostic m)) := by
    rw [testAllModelsForImageGeneration, ← filter_nonDiagnostic]
    split
    · rename_i hlen
      exact (List.length_eq_zero.mp hlen).symm
    · rfl
  refine ⟨hvalid, ?_, ?_, ?_⟩
  · intro models hm
    subst hm
    rw [hvalid, listAvailableModels]
    split
    · rename_i hlen
      rw [List.length_eq_zero.mp hlen]
      decide
    · rfl
  · rw [testAllModelsForImageGeneration]
    split
    · rfl
    · rfl
  · intro msg hm
    subst hm
    have hcond : (List.filter
        (fun m => !(strStartsWith m ("Error")) && !(strStartsWith m ("No models")))
        (listAvailableModels (Except.error msg))).length = 0 := by
      rw [listAvailableModels]
      simp [List.filter, errorListingMsg_diagnostic msg]
    rw [testAllModelsForImageGeneration]
    simp [hcond]

/-- Witness: the C6 statement at a one-model listing and at a transport
failure, with the inner hypotheses discharged. -/
theorem testAll_probes_nonDiagnostic_witness :
    (testAllModelsForImageGeneration (.ok sampleModels) sampleProbeClient sampleElapsed).1 =
      (capableModelNames sampleModels).filter (fun m => !(isDiagnostic m)) ∧
    testAllModelsForImageGeneration (.error ("net down")) sampleProbeClient sampleElapsed =
      ([], []) :=
  ⟨(testAll_probes_nonDiagnostic (.ok sampleModels) sampleProbeClient sampleElapsed).2.1
      sampleModels rfl,
   (testAll_probes_nonDiagnostic (.error ("net down")) sampleProbeClient sampleElapsed).2.2.2
      ("net down") rfl⟩

/-- Counterexample to C6 as stated: a capable model whose identifier
happens to start with the word Error is capability-filtered (one
identifier survives the `generateContent` filter) yet the probe sweep
returns zero results and issues zero probes, so the result length does not
equal the capability-filtered count. -/
theorem testAll_capability_count_cex :
    (capableModelNames trickModels).length = 1 ∧
    testAllModelsForImageGeneration (.ok trickModels) sampleProbeClient sampleElapsed =
      ([], []) := by
  constructor
  · decide
  · decide

/-- C7: the capability probe is total over every client behaviour: it
always returns a result carrying the probed identifier and a populated
elapsed-time field, and any client failure is converted into a negative
result recording the error's message. -/
theorem testModel_total (modelName : String) (client : Except String GenResponse)
    (elapsed : Nat) :
    (testImageGenerationModel modelName client elapsed).responseTime = some elapsed ∧
    (testImageGenerationModel modelName client elapsed).modelName = modelName ∧
    ∀ msg, client = .error msg →
      (testImageGenerationModel modelName client elapsed).supportsImageGeneration = false ∧
      (testImageGenerationModel modelName client elapsed).error = some msg := by
  cases client with
  | error msg =>
    refine ⟨rfl, rfl, ?_⟩
    intro m hm
    cases hm
    exact ⟨rfl, rfl⟩
  | ok r =>
    refine ⟨?_, ?_, ?_⟩
    · rw [testImageGenerationModel]
      split <;> rfl
    · rw [testImageGenerationModel]
      split <;> rfl
    · intro m hm
      cases hm

/-- Witness: probing against an always-throwing client double yields a
negative result with the message recorded and the timing populated. -/
theorem testModel_total_witness :
    (testImageGenerationModel ("m") (.error ("boom")) 5).responseTime = some 5 ∧
    (testImageGenerationModel ("m") (.error ("boom")) 5).supportsImageGeneration = false ∧
    (testImageGenerationModel ("m") (.error ("boom")) 5).error = some ("boom") :=
  ⟨(testModel_total ("m") (.error ("boom")) 5).1,
   ((testModel_total ("m") (.error ("boom")) 5).2.2 ("boom") rfl).1,
   ((testModel_total ("m") (.error ("boom")) 5).2.2 ("boom") rfl).2⟩

/-- C8: the listing operation filters the backend models to the ones
advertising `generateContent`, keeping the backend order; an empty filtered
sequence becomes the single No-models sentinel, a transport failure becomes
a single Error-prefixed diagnostic, and the returned sequence is never
empty. -/
theorem listModels_contract (models : List ListedModel) (msg : String) :
    (capableModelNames models ≠ [] →
      listAvailableModels (.ok models) = capableModelNames models) ∧
    (capableModelNames models = [] → listAvailableModels (.ok models) = [noModelsMsg]) ∧
    strStartsWith noModelsMsg ("No models") = true ∧
    listAvailableModels (.error msg) = [errorListingMsg msg] ∧
    strStartsWith (errorListingMsg msg) ("Error") = true ∧
    ∀ listing : Except String (List ListedModel), listAvailableModels listing ≠ [] := by
  refine ⟨?_, ?_, by decide, rfl, errorListingMsg_diagnostic msg, ?_⟩
  · intro hne
    rw [listAvailableModels]
    split
    · rename_i hlen
      exact absurd (List.length_eq_zero.mp hlen) hne
    · rfl
  · intro he
    rw [listAvailableModels]
    split
    · rfl
    · rename_i hlen
      exact absurd (congrArg List.length he) hlen
  · intro listing
    cases listing with
    | error m => simp [listAvailableModels]
    | ok ms =>
      rw [listAvailableModels]
      split
      · simp
      · rename_i hlen
        exact fun hnil => hlen (congrArg List.length hnil)

/-- Witness: the C8 statement with its two conditional branches
discharged, at a one-model listing and at an empty listing. -/
theorem listModels_contract_witness :
    listAvailableModels (.ok sampleModels) = capableModelNames sampleModels ∧
    listAvailableModels (.ok []) = [noModelsMsg] ∧
    listAvailableModels (.error ("net down")) = [errorListingMsg ("net down")] :=
  ⟨(listModels_contract sampleModels ("net down")).1 (by decide),
   (listModels_contract [] ("net down")).2.1 rfl,
   (listModels_contract [] ("net down")).2.2.2.1⟩

/-- C9: a probe result records an error exactly when it is negative — the
error field is populated if and only if `supportsImageGeneration` is
`false`, so the combinations the record type permits but the code never
produces do not occur. -/
theorem testModel_error_iff_failure (modelName : String) (client : Except String GenResponse)
    (elapsed : Nat) :
    ((testImageGenerationModel modelName client elapsed).error).isSome =
      !(testImageGenerationModel modelName client elapsed).supportsImageGeneration := by
  cases client with
  | error msg => rfl
  | ok r =>
    rw [testImageGenerationModel]
    split <;> rfl

/-- C10: probing the same identifier twice against the same deterministic
client yields the same capability verdict and the same error value,
whatever the two measured elapsed times. -/
theorem testModel_deterministic (modelName : String) (client : Except String GenResponse)
    (e1 e2 : Nat) :
    (testImageGenerationModel modelName client e1).supportsImageGeneration =
      (testImageGenerationModel modelName client e2).supportsImageGeneration ∧
    (testImageGenerationModel modelName client e1).error =
      (testImageGenerationModel modelName client e2).error := by
  cases client with
  | error msg => exact ⟨rfl, rfl⟩
  | ok r =>
    rw [testImageGenerationModel, testImageGenerationModel]
    split <;> exact ⟨rfl, rfl⟩

end FloorPlanTo3D
